import Mathlib

/-!
# Verification of the local_academic research-assistant core

A shallow embedding, in Lean 4, of the core logic of the `local_academic`
repository (a client-side research assistant written in TypeScript):

* `src/types.ts` — the `Paper` / `ChatMessage` data model;
* `src/services/ollamaService.ts` — the LLM gateway (`generateAIResponse`,
  `sendOllamaRequest`, `sendGeminiRequest`, `getPaperContent`, the prompt
  builders);
* `src/services/paperService.ts` — the search client (`searchPapers`, its
  mock fallback, the DOI validator of the stricter variant);
* `src/services/storageService.ts` — text extraction (`extractTextFromPdf`);
* `src/App.tsx` — enrichment (`enrichPapersWithPdfContent`).

Network and storage effects are made explicit: each fallible external call
is a parameter of the embedded function (an oracle), and JavaScript
exceptions are modelled with `Except`.  JavaScript truthiness on optional
strings, `trim`, `toLowerCase`, `includes`, `slice`, `substring` and
`split(/\s+/)` are modelled for the ASCII strings the program manipulates.
-/

/-! ## JavaScript string / option primitives -/

/-- Truthiness of an optional JS string: `undefined`/`null` and `""` are falsy. -/
def jsTruthy : Option String → Bool
  | none => false
  | some s => !s.isEmpty

/-- `a || b` on two optional JS strings (first truthy wins). -/
def jsOrOpt (a b : Option String) : Option String :=
  if jsTruthy a then a else b

/-- `a || b` where `b` is a (string) default: JS `x || "d"`. -/
def jsOrStr (a : Option String) (b : String) : String :=
  if jsTruthy a then a.getD "" else b

/-- `String.prototype.toLowerCase` (adequate for the ASCII strings used here). -/
def jsToLower (s : String) : String := String.mk (s.data.map Char.toLower)

/-- `String.prototype.trim` (adequate for ASCII whitespace): drop whitespace
from both ends. -/
def jsTrim (s : String) : String :=
  String.mk (((s.data.dropWhile Char.isWhitespace).reverse.dropWhile Char.isWhitespace).reverse)

/-- `s.substring(0, n)` / the first `n` characters of `s`. -/
def strTake (s : String) (n : Nat) : String := String.mk (s.data.take n)

/-- Drop the first `n` characters of `s`. -/
def strDrop (s : String) (n : Nat) : String := String.mk (s.data.drop n)

/-- Does the character list `s` start with the character list `pat`? -/
def chStarts : List Char → List Char → Bool
  | _, [] => true
  | [], _ :: _ => false
  | a :: as, b :: bs => a == b && chStarts as bs

/-- Does the character list `s` contain `pat` as a contiguous run? -/
def chContains : List Char → List Char → Bool
  | [], pat => pat.isEmpty
  | a :: as, pat => chStarts (a :: as) pat || chContains as pat

/-- `String.prototype.includes`. -/
def strContains (s sub : String) : Bool := chContains s.data sub.data

/-- `query.replace(/\s+/g, '-')`: each maximal whitespace run becomes one dash.
`inRun` records whether the previous character was whitespace. -/
def wsRunsToDash : Bool → List Char → List Char
  | _, [] => []
  | inRun, c :: cs =>
    if c.isWhitespace then
      (if inRun then [] else ['-']) ++ wsRunsToDash true cs
    else c :: wsRunsToDash false cs

/-- `s.replace(/\s+/g, '-')`. -/
def replaceWsDash (s : String) : String := String.mk (wsRunsToDash false s.data)

/-- `s.split(/\s+/)` followed by a length filter: splitting at whitespace and
then keeping only fragments longer than `n` characters.  (`String.split` on a
whitespace predicate produces empty fragments between adjacent separators;
the length filter discards them, exactly as the JS `.filter(w => w.length > 2)`
discards the empty fragments a `/\s+/` split never produces.) -/
def splitWsAux : List Char → List Char → List String
  | [], acc => [String.mk acc.reverse]
  | c :: cs, acc =>
    if c.isWhitespace then String.mk acc.reverse :: splitWsAux cs []
    else splitWsAux cs (c :: acc)

/-- See `splitWsFilter`. -/
def splitWs (s : String) : List String := splitWsAux s.data []

/-- `s.split(/\s+/).filter(w => w.length > n)`: split at every whitespace
character and keep only fragments longer than `n`. -/
def splitWsFilter (s : String) (n : Nat) : List String :=
  (splitWs s).filter (fun w => n < w.length)

/-- `list.slice(offset, offset + limit)` on a list (JS clamps out-of-range). -/
def jsSlice {α : Type} (l : List α) (offset limit : Nat) : List α :=
  (l.drop offset).take limit

/-! ## Data model (`src/types.ts`) -/

/-- `savedAnalysis` of `Paper` (types.ts). -/
structure SavedAnalysis where
  summary : String
  methodology : String
  outcome : String
  deriving DecidableEq, Repr

/-- The `Paper` record of `src/types.ts`. -/
structure Paper where
  id : String
  title : String
  authors : List String
  year : Nat
  abstract : String
  citationCount : Nat
  url : Option String := none
  doi : Option String := none
  pdfUrl : Option String := none
  source : String
  isMock : Option Bool := none
  fullText : Option String := none
  savedAnalysis : Option SavedAnalysis := none
  deriving DecidableEq, Repr

/-- Chat roles of `ChatMessage` (types.ts). -/
inductive ChatRole where
  | system
  | user
  | assistant
  deriving DecidableEq, Repr

/-- The `ChatMessage` record of `src/types.ts`. -/
structure ChatMessage where
  role : ChatRole
  content : String
  deriving DecidableEq, Repr

/-! ## LLM gateway (`src/services/ollamaService.ts`)

The primary (first) variant of `ollamaService.ts` is embedded: the one with
`generateAIResponse`, the Gemini adapter and the `auto` provider mode. -/

/-- `ProviderPreference` of ollamaService.ts. -/
inductive ProviderPreference where
  | auto
  | ollama
  | gemini
  deriving DecidableEq, Repr

/-- The marker prepended to truncated full text by `getPaperContent`. -/
def fullTextMarker : String := "(Tam Metin İçeriği Mevcut - İlk Kısım):\n"

/-- The marker prepended to abstract-only content by `getPaperContent`. -/
def abstractMarker : String := "(Özet):\n"

/-- `getPaperContent` (ollamaService.ts, lines 21–29): use the full text,
truncated to 10,000 characters, only when it exists and is longer than 200
characters (`p.fullText && p.fullText.length > 200`); otherwise the abstract. -/
def getPaperContent (p : Paper) : String :=
  match p.fullText with
  | some t =>
    if 200 < t.length then fullTextMarker ++ strTake t 10000 ++ "..."
    else abstractMarker ++ p.abstract
  | none => abstractMarker ++ p.abstract

/-- The content-selection rule as the specification words it ("if `fullText`
is present, use the first 10,000 characters of it, prefixed with a marker");
kept separate from `getPaperContent` so the two can be compared. -/
def specSelectedContent (p : Paper) : String :=
  match p.fullText with
  | some t => fullTextMarker ++ strTake t 10000 ++ "..."
  | none => abstractMarker ++ p.abstract

/-- An HTTP response of the Ollama `/api/chat` endpoint, as the JSON the
client reads: `message.content` may be missing when the body is malformed. -/
structure OllamaHttp where
  ok : Bool
  status : Nat
  errorText : String
  message : Option (Option String)
  deriving DecidableEq, Repr

/-- One `parts` element of a Gemini response. -/
structure GeminiPart where
  text : String
  deriving DecidableEq, Repr

/-- The `content` of a Gemini candidate. -/
structure GeminiContent where
  parts : List GeminiPart
  deriving DecidableEq, Repr

/-- One element of `candidates` in a Gemini response. -/
structure GeminiCandidate where
  content : Option GeminiContent
  deriving DecidableEq, Repr

/-- An HTTP response of the Gemini `generateContent` endpoint. -/
structure GeminiHttp where
  ok : Bool
  status : Nat
  errorText : String
  candidates : Option (List GeminiCandidate)
  deriving DecidableEq, Repr

/-- `sendOllamaRequest` (ollamaService.ts, lines 400–424): non-2xx throws an
`Ollama API hatası` error; a well-formed body yields `message.content.trim()`;
a body without `message`/`content` makes `data.message.content` a runtime
`TypeError`, i.e. a rejection. -/
def sendOllamaRequest (resp : OllamaHttp) : Except String String :=
  if resp.ok then
    match resp.message with
    | some (some content) => .ok (jsTrim content)
    | _ => .error "TypeError: cannot read properties of undefined"
  else
    .error ("Ollama API hatası: " ++ toString resp.status ++ " - " ++ resp.errorText)

/-- `sendGeminiRequest` (ollamaService.ts, lines 426–471): non-2xx throws a
`Gemini API Error`; a 2xx body with a first candidate carrying a non-empty
`parts` yields `parts[0].text`; any other 2xx body returns `""`. -/
def sendGeminiRequest (resp : GeminiHttp) : Except String String :=
  if resp.ok then
    match resp.candidates with
    | some (c :: _) =>
      match c.content with
      | some ct =>
        match ct.parts with
        | p :: _ => .ok p.text
        | [] => .ok ""
      | none => .ok ""
    | _ => .ok ""
  else
    .error ("Gemini API Error: " ++ toString resp.status ++ " " ++ resp.errorText)

/-- The explicit no-AI-service error thrown by `generateAIResponse`. -/
def noAIServiceError : String :=
  "Hiçbir AI servisine erişilemiyor (Ollama kapalı ve Gemini anahtarı yok)."

/-- The environment of one `generateAIResponse` call: the result of the
Ollama connectivity probe (`checkAIConnection().ollama`, which never throws),
whether a Gemini API key is configured, and the HTTP responses the two
backends would give to a message list. -/
structure AIEnv where
  ollamaReachable : Bool
  geminiKeyConfigured : Bool
  ollamaHttp : List ChatMessage → OllamaHttp
  geminiHttp : List ChatMessage → GeminiHttp

/-- The Gemini fall-back tail of `generateAIResponse` (lines 392–397). -/
def geminiFallback (env : AIEnv) (messages : List ChatMessage) : Except String String :=
  if env.geminiKeyConfigured then sendGeminiRequest (env.geminiHttp messages)
  else .error noAIServiceError

/-- `generateAIResponse` (ollamaService.ts, lines 365–398).  Forced modes go
straight to their backend (`gemini` first checks the key); `auto` probes
Ollama, routes there when reachable, catches a failed Ollama send, and then
falls back to Gemini only when the key is configured. -/
def generateAIResponse (pref : ProviderPreference) (env : AIEnv)
    (messages : List ChatMessage) : Except String String :=
  match pref with
  | .ollama => sendOllamaRequest (env.ollamaHttp messages)
  | .gemini =>
    if env.geminiKeyConfigured then sendGeminiRequest (env.geminiHttp messages)
    else .error "Gemini API Key eksik!"
  | .auto =>
    if env.ollamaReachable then
      match sendOllamaRequest (env.ollamaHttp messages) with
      | .ok r => .ok r
      | .error _ => geminiFallback env messages
    else geminiFallback env messages

/-! ### Literature-review prompt builder (`generateLiteratureReview`) -/

/-- The reference token assigned to the paper at (0-based) position `i`:
`ref1`, `ref2`, … (`MAKALE_ID: ref${i + 1}` in `generateLiteratureReview`). -/
def refToken (i : Nat) : String := "ref" ++ toString (i + 1)

/-- `papers.some(p => p.fullText)`: does any input paper carry (truthy) full
text? -/
def anyFullText (papers : List Paper) : Bool :=
  papers.any (fun p => jsTruthy p.fullText)

/-- The source cap of `generateLiteratureReview` (ollamaService.ts, line 169):
6 papers when any input paper carries full text, 15 otherwise. -/
def litReviewLimit (papers : List Paper) : Nat :=
  if anyFullText papers then 6 else 15

/-- `contextPapers = papers.slice(0, limit)` of `generateLiteratureReview`. -/
def litReviewContextPapers (papers : List Paper) : List Paper :=
  papers.take (litReviewLimit papers)

/-- The (reference token, source description) pairs of the prompt context of
`generateLiteratureReview` (lines 173–179): the i-th included paper is
announced under `MAKALE_ID: ref(i+1)`. -/
def litReviewEntries (papers : List Paper) : List (String × String) :=
  (litReviewContextPapers papers).mapIdx (fun i p =>
    (refToken i,
     "MAKALE_ID: " ++ refToken i ++
     "\n     Başlık: " ++ p.title ++
     "\n     Yazarlar: " ++ String.intercalate ", " p.authors ++
     "\n     Yıl: " ++ toString p.year ++
     "\n     İçerik: " ++ getPaperContent p))

/-- The joined source-list context of `generateLiteratureReview`. -/
def litReviewContext (papers : List Paper) : String :=
  String.intercalate "\n\n----------------\n\n" ((litReviewEntries papers).map Prod.snd)

/-! ## Text extraction (`src/services/storageService.ts`) -/

/-- One PDF page as the `str` fields of its text-content items. -/
abbrev PdfPage := List String

/-- A parsed PDF document: its pages in order. -/
abbrev PdfDoc := List PdfPage

/-- The outcome of `pdfjsLib.getDocument(...).promise` on a blob: `none` when
parsing fails (rejected promise), `some pages` otherwise.  This is the only
aspect of a blob `extractTextFromPdf` observes. -/
abbrev ParsedBlob := Option PdfDoc

/-- `extractTextFromPdf` (storageService.ts, lines 86–113): any parse failure
returns `""`; otherwise pages `1 .. min(numPages, 15)` are processed in
order, each page's tokens joined by single spaces and each page's text
followed by a blank line (`fullText += pageText + "\n\n"`). -/
def extractTextFromPdf (blob : ParsedBlob) : String :=
  match blob with
  | none => ""
  | some pages =>
    let maxPages := min pages.length 15
    String.join ((pages.take maxPages).map (fun pg => String.intercalate " " pg ++ "\n\n"))

/-- How many pages the `for` loop of `extractTextFromPdf` runs over. -/
def pagesProcessed (blob : ParsedBlob) : Nat :=
  match blob with
  | none => 0
  | some pages => min pages.length 15

/-! ## Enrichment (`src/App.tsx`, `enrichPapersWithPdfContent`) -/

/-- The environment one enrichment pass reads: the `cachedPdfIds` set held in
component state, and the cache lookup `getPdfFromCache` (which can reject —
`.error` — or resolve to `none` or to a blob, here represented by its parse
outcome, the only thing extraction observes). -/
structure EnrichEnv where
  cachedPdfIds : String → Bool
  pdfFetch : String → Except Unit (Option ParsedBlob)

/-- The per-paper body of `enrichPapersWithPdfContent` (App.tsx, lines
133–149): only a paper whose id is in `cachedPdfIds` and which does not
already carry (truthy) `fullText` is looked up; a rejected lookup is caught
and the paper returned unchanged; extracted text is attached as `fullText`
only when longer than 50 characters, via the spread `{ ...p, fullText }`
(copy-on-write — the input object is never mutated). -/
def enrichPaper (env : EnrichEnv) (p : Paper) : Paper :=
  if env.cachedPdfIds p.id && !(jsTruthy p.fullText) then
    match env.pdfFetch p.id with
    | .ok (some blob) =>
      let text := extractTextFromPdf blob
      if 50 < text.length then { p with fullText := some text } else p
    | .ok none => p
    | .error _ => p
  else p

/-- `enrichPapersWithPdfContent` (App.tsx, lines 132–150): the per-paper body
mapped over the input list (`Promise.all(papersToEnrich.map(...))`). -/
def enrichPapersWithPdfContent (env : EnrichEnv) (papers : List Paper) : List Paper :=
  papers.map (enrichPaper env)

/-! ## Search client (`src/services/paperService.ts`)

Both cited variants are embedded: the first (abstract filter only, synthetic
fallback padding with a random citation count) and the second (abstract
filter plus DOI validation, fallback padding that recycles the fixture). -/

/-- A Semantic Scholar search item, as read by `searchPapers`. -/
structure S2Paper where
  paperId : String
  title : String
  abstract : Option String
  year : Option Nat
  citationCount : Option Nat
  authors : Option (List String)
  venue : Option String
  url : Option String
  doi : Option String
  openAccessPdf : Option String
  deriving DecidableEq, Repr

/-- A Semantic Scholar search response body. -/
structure S2SearchResponse where
  total : Nat
  offset : Nat
  data : Option (List S2Paper)
  deriving DecidableEq, Repr

/-- The abstract filter of both variants:
`item.abstract && item.abstract.length > 50`. -/
def keepAbstract (item : S2Paper) : Bool :=
  match item.abstract with
  | some s => 50 < s.length
  | none => false

/-- The item-to-`Paper` map of the first variant (paperService.ts, lines
137–147). -/
def toPaperV1 (currentYear : Nat) (item : S2Paper) : Paper :=
  { id := item.paperId
    title := item.title
    authors := item.authors.getD ["Unknown"]
    year := item.year.getD currentYear
    abstract := item.abstract.getD "No abstract available."
    citationCount := item.citationCount.getD 0
    source := jsOrStr item.venue "Academic Source"
    doi := item.doi
    url := some (jsOrStr (jsOrOpt item.openAccessPdf item.url)
      ("https://www.semanticscholar.org/paper/" ++ item.paperId)) }

/-- The filter-and-map pipeline of the first variant (lines 135–147). -/
def transformV1 (currentYear : Nat) (data : List S2Paper) : List Paper :=
  (data.filter keepAbstract).map (toPaperV1 currentYear)

/-- The character class of the DOI suffix in `getValidDOI`'s regex
`[-._;()/:a-zA-Z0-9%]`. -/
def doiAllowedChar (c : Char) : Bool :=
  c.isAlpha || c.isDigit ||
    c == '-' || c == '.' || c == '_' || c == ';' || c == '(' || c == ')' ||
    c == '/' || c == ':' || c == '%'

/-- The regex test `^10\.\d{4,9}\/[-._;()/:a-zA-Z0-9%]+$` of `getValidDOI`:
`10.`, then 4–9 digits, then `/`, then a non-empty allowed-character run. -/
def doiRegexTest (s : String) : Bool :=
  match s.data with
  | '1' :: '0' :: '.' :: rest =>
    let ds := rest.takeWhile Char.isDigit
    let tail := rest.dropWhile Char.isDigit
    decide (4 ≤ ds.length) && decide (ds.length ≤ 9) &&
      (match tail with
       | '/' :: sfx => !sfx.isEmpty && sfx.all doiAllowedChar
       | _ => false)
  | _ => false

/-- Case-insensitive ASCII check that `s` starts with the lowercase `pat`
(the `/^.../i` anchors of `getValidDOI`). -/
def lowerStarts (s pat : String) : Bool :=
  chStarts (jsToLower s).data pat.data

/-- `doi.replace(/^doi:/i, '')`. -/
def stripDoiColon (s : String) : String :=
  if lowerStarts s "doi:" then strDrop s 4 else s

/-- `doi.replace(/^https?:\/\/doi\.org\//i, '')`. -/
def stripDoiUrl (s : String) : String :=
  if lowerStarts s "https://doi.org/" then strDrop s 16
  else if lowerStarts s "http://doi.org/" then strDrop s 15
  else s

/-- `getValidDOI` (paperService.ts second variant, lines 257–276): falsy input
is rejected; the input is trimmed, `doi:` and `doi.org` URL prefixes are
stripped, and the result must pass the DOI regex. -/
def getValidDOI (doiInput : Option String) : Option String :=
  if jsTruthy doiInput then
    let doi := stripDoiUrl (stripDoiColon (jsTrim (doiInput.getD "")))
    if doiRegexTest doi then some doi else none
  else none

/-- The DOI filter of the second variant (lines 323–338). -/
def keepDoi (item : S2Paper) : Bool :=
  (getValidDOI item.doi).isSome

/-- The item-to-`Paper` map of the second variant (lines 339–360): the
validated, cleaned DOI is installed and the URL is rebuilt from it. -/
def toPaperV2 (currentYear : Nat) (item : S2Paper) : Paper :=
  let cleanDOI := (getValidDOI item.doi).getD ""
  { id := item.paperId
    title := item.title
    authors := item.authors.getD ["Unknown"]
    year := item.year.getD currentYear
    abstract := item.abstract.getD "No abstract available."
    citationCount := item.citationCount.getD 0
    source := jsOrStr item.venue "Academic Source"
    doi := some cleanDOI
    url := some ("https://doi.org/" ++ cleanDOI)
    pdfUrl := item.openAccessPdf
    isMock := some false }

/-- The filter-and-map pipeline of the second (stricter) variant (lines
321–360). -/
def transformV2 (currentYear : Nat) (data : List S2Paper) : List Paper :=
  ((data.filter keepAbstract).filter keepDoi).map (toPaperV2 currentYear)

/-- The `{papers, total}` search result shape. -/
structure SearchResponse where
  papers : List Paper
  total : Nat
  deriving DecidableEq, Repr

/-- `MOCK_DATABASE` of the first paperService.ts variant (lines 4–36). -/
def MOCK_DATABASE_V1 : List Paper :=
  [ { id := "1"
      title := "The Effects of Caffeine on Sleep Quality and Architecture"
      authors := ["J. Smith", "A. Doe"]
      year := 2023
      citationCount := 45
      doi := some "10.1111/jsr.12345"
      source := "Journal of Sleep Research"
      url := some "https://onlinelibrary.wiley.com/doi/full/10.1111/jsr.12345"
      abstract := "This study investigates the impact of high-dose caffeine consumption (400mg) administered 6 hours prior to bedtime. Using polysomnography, we found a significant reduction in sleep efficiency and slow-wave sleep duration in the experimental group compared to placebo." },
    { id := "2"
      title := "Machine Learning Approaches for Early Diabetes Detection"
      authors := ["K. Johnson", "B. Lee", "T. Nguyen"]
      year := 2024
      citationCount := 12
      doi := some "10.1016/j.artmed.2023.102751"
      source := "AI in Medicine"
      url := some "https://www.sciencedirect.com/science/article/pii/S093336572300156X"
      abstract := "We propose a novel ensemble learning framework utilizing Random Forest and Gradient Boosting machines to predict Type 2 diabetes risk. The model achieved an accuracy of 92% and sensitivity of 89% on the Pima Indians Diabetes Dataset, outperforming traditional logistic regression models." },
    { id := "3"
      title := "Urban Green Spaces and Mental Health: A Systematic Review"
      authors := ["M. Garcia", "S. Patel"]
      year := 2022
      citationCount := 156
      source := "Environmental Psychology"
      abstract := "A systematic review of 50 longitudinal studies examining the relationship between proximity to urban green spaces and anxiety disorders. The findings suggest a moderate negative correlation between green space accessibility and self-reported anxiety symptoms." } ]

/-- The eight title templates of `generateMockPapers` (first variant), as
functions of the query they interpolate. -/
def mockTitlesV1 (query : String) : List String :=
  [ "Advanced Analysis of " ++ query ++ " in Modern Contexts",
    "A Longitudinal Study on " ++ query ++ " and its Implications",
    "Reviewing the Impact of " ++ query ++ " on Global Systems",
    "New Methodologies for Evaluating " ++ query,
    "The Future of " ++ query ++ ": A Predictive Model",
    "Comparative Study of " ++ query ++ " vs Traditional Methods",
    "Meta-Analysis of " ++ query ++ " Outcomes",
    "Ethical Considerations in " ++ query ++ " Research" ]

/-- The five venue names of `generateMockPapers` (first variant). -/
def mockSourcesV1 : List String :=
  [ "Journal of Advanced Research",
    "International Science Review",
    "Academic Proceedings 2024",
    "Global Perspectives",
    "Technology & Future" ]

/-- The generated-abstract template of `generateMockPapers` (first variant). -/
def mockAbstractV1 (query : String) : String :=
  "[MOCK DATA - API FAILED] This is a generated abstract for a paper about "
    ++ query ++
    ". It simulates a detailed academic summary discussing the methodology, results, and implications of the study regarding "
    ++ query ++
    ". The study observed a significant correlation (p < 0.05) in the variable set."

/-- `generateMockPapers` of the first variant (paperService.ts, lines 71–104).
`Math.floor(Math.random() * 500)` is modelled by an explicit random source
`rand`: the i-th generated paper's citation count is `rand i % 500`. -/
def generateMockPapersV1 (rand : Nat → Nat) (query : String) (count startIndex : Nat) :
    List Paper :=
  (List.range count).map (fun i =>
    let idx := startIndex + i
    { id := "gen-" ++ replaceWsDash query ++ "-" ++ toString idx
      title := (mockTitlesV1 query).getD (idx % (mockTitlesV1 query).length) ""
        ++ " (Vol. " ++ toString idx ++ ")"
      authors := ["Author " ++ toString idx ++ "A", "Author " ++ toString idx ++ "B"]
      year := 2020 + (idx % 5)
      citationCount := rand i % 500
      source := mockSourcesV1.getD (idx % mockSourcesV1.length) ""
      doi := some ("10.1000/xyz." ++ toString idx)
      abstract := mockAbstractV1 query })

/-- The `catch` branch of the first variant's `searchPapers` (lines 154–178):
substring match of the lowercased trimmed query (or any of its >2-character
words) against the fixture, padding with `generateMockPapers` up to a total
of 45, then one page sliced out. -/
def fallbackSearchV1 (rand : Nat → Nat) (query : String) (offset limit : Nat) :
    SearchResponse :=
  let lowerQuery := jsTrim (jsToLower query)
  let queryWords := splitWsFilter lowerQuery 2
  let matching := MOCK_DATABASE_V1.filter (fun paper =>
    strContains (jsToLower paper.title) lowerQuery ||
    strContains (jsToLower paper.abstract) lowerQuery ||
    queryWords.any (fun w => strContains (jsToLower paper.title) w))
  let padded :=
    if matching.length < 45 then
      matching ++ generateMockPapersV1 rand query (45 - matching.length) matching.length
    else matching
  { papers := jsSlice padded offset limit, total := padded.length }

/-- `searchPapers` of the first variant (paperService.ts, lines 106–178).
`net` is the outcome of the `fetch` + `response.json()` round trip for this
call: `none` when the request or parse failed (including non-2xx, which the
code turns into a thrown error), `some body` otherwise.  The whitespace-only
query guard precedes any use of `net`. -/
def searchPapersV1 (rand : Nat → Nat) (currentYear : Nat)
    (net : Option S2SearchResponse) (query : String) (offset limit : Nat) :
    SearchResponse :=
  let lowerQuery := jsTrim (jsToLower query)
  if lowerQuery.isEmpty then { papers := [], total := 0 }
  else
    match net with
    | some data =>
      match data.data with
      | none => { papers := [], total := data.total }
      | some [] => { papers := [], total := data.total }
      | some items =>
        let papers := transformV1 currentYear items
        { papers := papers
          total := if data.total = 0 then papers.length else data.total }
    | none => fallbackSearchV1 rand query offset limit

/-- `MOCK_DATABASE` of the second paperService.ts variant (lines 183–222). -/
def MOCK_DATABASE_V2 : List Paper :=
  [ { id := "1"
      title := "The Effects of Caffeine on Sleep Quality and Architecture"
      authors := ["Clark, I.", "Landolt, H.P."]
      year := 2017
      citationCount := 145
      doi := some "10.1016/j.smrv.2016.01.006"
      source := "Sleep Medicine Reviews"
      url := some "https://pubmed.ncbi.nlm.nih.gov/26847979/"
      isMock := some true
      abstract := "Caffeine is the most widely consumed psychoactive substance in the world. It promotes wakefulness by antagonizing adenosine receptors in the brain. This systematic review examines the effects of caffeine on sleep quality and sleep architecture. The results consistently show that caffeine prolonged sleep latency, reduced total sleep time and sleep efficiency, and worsened perceived sleep quality. Slow-wave sleep and delta activity were also reduced, particularly when caffeine was consumed close to bedtime. The magnitude of these effects varies depending on the dose and the individual's caffeine sensitivity and habitual consumption." },
    { id := "2"
      title := "Machine Learning Approaches for Early Diabetes Detection"
      authors := ["Lai, H.", "Huang, H.", "Keshavjee, K."]
      year := 2019
      citationCount := 89
      doi := some "10.3390/jpm9040049"
      source := "Journal of Personalized Medicine"
      url := some "https://www.ncbi.nlm.nih.gov/pmc/articles/PMC6961054/"
      pdfUrl := some "https://www.ncbi.nlm.nih.gov/pmc/articles/PMC6961054/pdf/jpm-09-00049.pdf"
      isMock := some true
      abstract := "Diabetes mellitus is a chronic disease that affects millions of people worldwide. Early detection is crucial for effective management and prevention of complications. In this study, we propose a novel ensemble learning framework utilizing Random Forest and Gradient Boosting machines to predict Type 2 diabetes risk. Using the Pima Indians Diabetes Dataset and a Canadian primary care dataset, the model achieved an accuracy of 92% and sensitivity of 89%, significantly outperforming traditional logistic regression models. Feature importance analysis highlighted glucose levels and BMI as the most critical predictors." },
    { id := "3"
      title := "Urban Green Spaces and Mental Health: A Systematic Review"
      authors := ["Houlden, V.", "Weich, S.", "Porto de Albuquerque, J."]
      year := 2018
      citationCount := 312
      doi := some "10.1371/journal.pone.0203000"
      source := "PLOS ONE"
      url := some "https://journals.plos.org/plosone/article?id=10.1371/journal.pone.0203000"
      pdfUrl := some "https://journals.plos.org/plosone/article/file?id=10.1371/journal.pone.0203000&type=printable"
      isMock := some true
      abstract := "Mental health disorders are a growing global concern. Increasing evidence suggests that urban green spaces can positively influence mental well-being. This systematic review analyzed 50 observational and longitudinal studies examining the relationship between proximity to urban green spaces and anxiety/mood disorders. The findings suggest a consistent negative correlation between green space accessibility and self-reported anxiety symptoms. Mechanisms proposed include stress reduction theory and attention restoration theory. However, the quality of green space and accessibility were found to be more important than the total amount of green space." } ]

/-- `generateMockPapers` of the second variant (lines 279–291): recycles the
fixture entries round-robin, changing only the generated id (and `isMock`). -/
def generateMockPapersV2 (query : String) (count startIndex : Nat) : List Paper :=
  (List.range count).map (fun i =>
    let template := MOCK_DATABASE_V2.getD ((startIndex + i) % MOCK_DATABASE_V2.length)
      { id := "", title := "", authors := [], year := 0, citationCount := 0,
        abstract := "", source := "" }
    { template with
      id := "gen-" ++ replaceWsDash query ++ "-" ++ toString (startIndex + i)
      isMock := some true })

/-- The `catch` branch of the second variant's `searchPapers` (lines 367–394). -/
def fallbackSearchV2 (query : String) (offset limit : Nat) : SearchResponse :=
  let lowerQuery := jsTrim (jsToLower query)
  let queryWords := splitWsFilter lowerQuery 2
  let matching := MOCK_DATABASE_V2.filter (fun paper =>
    strContains (jsToLower paper.title) lowerQuery ||
    strContains (jsToLower paper.abstract) lowerQuery ||
    queryWords.any (fun w => strContains (jsToLower paper.title) w))
  let padded :=
    if matching.length < 45 then
      matching ++ generateMockPapersV2 query (45 - matching.length) matching.length
    else matching
  { papers := jsSlice padded offset limit, total := padded.length }

/-- `searchPapers` of the second (stricter) variant (paperService.ts, lines
293–395), with the same `net` convention as `searchPapersV1`. -/
def searchPapersV2 (currentYear : Nat) (net : Option S2SearchResponse)
    (query : String) (offset limit : Nat) : SearchResponse :=
  let lowerQuery := jsTrim (jsToLower query)
  if lowerQuery.isEmpty then { papers := [], total := 0 }
  else
    match net with
    | some data =>
      match data.data with
      | none => { papers := [], total := data.total }
      | some [] => { papers := [], total := data.total }
      | some items =>
        let papers := transformV2 currentYear items
        { papers := papers
          total := if data.total = 0 then papers.length else data.total }
    | none => fallbackSearchV2 query offset limit

/-! ## Inverted-index abstract reconstruction

Modelled from the spec: the search-client variant that normalizes
inverted-index abstracts (a word → positions mapping, as delivered by e.g.
OpenAlex) is not among the files under `src/` — the variants present all
read plain-string abstracts.  Per §4.1 of the spec, reconstruction allocates
an array of size `max(position) + 1`, places each word at each of its
positions, and joins with single spaces. -/

/-- An inverted word-position index: each word with its list of positions. -/
abbrev InvIndex := List (String × List Nat)

/-- The largest position mentioned anywhere in the index (0 when none). -/
def maxPosition (idx : InvIndex) : Nat :=
  idx.foldr (fun e acc => max (e.2.foldr max 0) acc) 0

/-- Modelled from the spec: write one word at each of its positions. -/
def placeWord (arr : Array String) (w : String) (ps : List Nat) : Array String :=
  ps.foldl (fun a pos => a.setD pos w) arr

/-- Modelled from the spec: the reconstructed word array — allocate
`max(position) + 1` slots and place every word at each of its positions. -/
def reconstructAbstractArr (idx : InvIndex) : Array String :=
  idx.foldl (fun arr e => placeWord arr e.1 e.2) (Array.mkArray (maxPosition idx + 1) "")

/-- Modelled from the spec: the reconstructed plain-string abstract — the
word array joined with single spaces. -/
def reconstructAbstract (idx : InvIndex) : String :=
  String.intercalate " " (reconstructAbstractArr idx).toList

/-! ## Helper lemmas -/

/-- Length of a string built from an explicit character list. -/
theorem strLength_mk (l : List Char) : (String.mk l).length = l.length := rfl

/-! ## Theorems -/

/-- C1: in `auto` mode `generateAIResponse` probes Ollama first; when the
probe reports it reachable the request is routed there (an Ollama success is
returned as-is); when unreachable it falls back to Gemini exactly when a
Gemini API key is configured, returning the Gemini sender's response; and
when Ollama is down and no key is configured it fails with the explicit
no-AI-service error, deterministically, for every message list. -/
theorem generateAIResponse_auto_spec (env : AIEnv) (m : List ChatMessage) :
    (env.ollamaReachable = true →
      ∀ r, sendOllamaRequest (env.ollamaHttp m) = .ok r →
        generateAIResponse .auto env m = .ok r)
    ∧ (env.ollamaReachable = false → env.geminiKeyConfigured = true →
        generateAIResponse .auto env m = sendGeminiRequest (env.geminiHttp m))
    ∧ (env.ollamaReachable = false → env.geminiKeyConfigured = true →
        ∀ r, sendGeminiRequest (env.geminiHttp m) = .ok r →
          generateAIResponse .auto env m = .ok r)
    ∧ (env.ollamaReachable = false → env.geminiKeyConfigured = false →
        generateAIResponse .auto env m = .error noAIServiceError) := by
  refine ⟨?_, ?_, ?_, ?_⟩
  · intro hup r hok
    simp [generateAIResponse, hup, hok]
  · intro hdown hkey
    simp [generateAIResponse, geminiFallback, hdown, hkey]
  · intro hdown hkey r hok
    simp [generateAIResponse, geminiFallback, hdown, hkey, hok]
  · intro hdown hkey
    simp [generateAIResponse, geminiFallback, hdown, hkey]

/-- A healthy-Ollama environment for the C1 witness. -/
def c1EnvOllamaUp : AIEnv :=
  { ollamaReachable := true
    geminiKeyConfigured := false
    ollamaHttp := fun _ => { ok := true, status := 200, errorText := "", message := some (some "merhaba") }
    geminiHttp := fun _ => { ok := true, status := 200, errorText := "", candidates := none } }

/-- An Ollama-down, Gemini-configured environment for the C1 witness. -/
def c1EnvGeminiOnly : AIEnv :=
  { ollamaReachable := false
    geminiKeyConfigured := true
    ollamaHttp := fun _ => { ok := false, status := 500, errorText := "down", message := none }
    geminiHttp := fun _ =>
      { ok := true, status := 200, errorText := ""
        candidates := some [{ content := some { parts := [{ text := "gemini cevabı" }] } }] } }

/-- A nothing-available environment for the C1 witness. -/
def c1EnvNothing : AIEnv :=
  { ollamaReachable := false
    geminiKeyConfigured := false
    ollamaHttp := fun _ => { ok := false, status := 500, errorText := "down", message := none }
    geminiHttp := fun _ => { ok := false, status := 403, errorText := "no key", candidates := none } }

/-- Witness for C1: the three `auto`-mode routes at concrete environments. -/
theorem generateAIResponse_auto_spec_witness :
    generateAIResponse .auto c1EnvOllamaUp [] = .ok "merhaba"
    ∧ generateAIResponse .auto c1EnvGeminiOnly [] = .ok "gemini cevabı"
    ∧ generateAIResponse .auto c1EnvNothing [] = .error noAIServiceError :=
  ⟨(generateAIResponse_auto_spec c1EnvOllamaUp []).1 rfl "merhaba" rfl,
   (generateAIResponse_auto_spec c1EnvGeminiOnly []).2.2.1 rfl rfl "gemini cevabı" rfl,
   (generateAIResponse_auto_spec c1EnvNothing []).2.2.2 rfl rfl⟩

/-- A well-formed-HTTP but candidate-less Gemini response. -/
def c2MalformedGemini : GeminiHttp :=
  { ok := true, status := 200, errorText := "", candidates := none }

/-- An `auto`-mode environment in which Ollama is unreachable and Gemini
answers 200 with no candidates. -/
def c2Env : AIEnv :=
  { ollamaReachable := false
    geminiKeyConfigured := true
    ollamaHttp := fun _ => { ok := false, status := 500, errorText := "down", message := none }
    geminiHttp := fun _ => c2MalformedGemini }

/-- C2 counterexample: on a malformed (candidate-less) 200 response the
Gemini sender does not fail — it yields `.ok ""` — and the top-level gateway
returns that empty string without raising. -/
theorem gateway_returns_empty_string_cex :
    sendGeminiRequest c2MalformedGemini = .ok ""
    ∧ generateAIResponse .auto c2Env [{ role := .user, content := "soru" }] = .ok "" := by
  exact ⟨rfl, rfl⟩

/-- C2 amended: each per-backend sender fails with its own distinct error on
HTTP failure (non-2xx), and a malformed Ollama body also fails; but a 2xx
Gemini body without candidates makes `sendGeminiRequest` return the empty
string (which the gateway passes through), so the gateway can return `""`
without raising. -/
theorem senders_failure_spec (oresp : OllamaHttp) (gresp : GeminiHttp) :
    (oresp.ok = false →
      sendOllamaRequest oresp =
        .error ("Ollama API hatası: " ++ toString oresp.status ++ " - " ++ oresp.errorText))
    ∧ (gresp.ok = false →
      sendGeminiRequest gresp =
        .error ("Gemini API Error: " ++ toString gresp.status ++ " " ++ gresp.errorText))
    ∧ (oresp.ok = true → oresp.message = none →
        ∃ e, sendOllamaRequest oresp = .error e)
    ∧ (gresp.ok = true → gresp.candidates = none →
        sendGeminiRequest gresp = .ok "") := by
  refine ⟨?_, ?_, ?_, ?_⟩
  · intro h; simp [sendOllamaRequest, h]
  · intro h; simp [sendGeminiRequest, h]
  · intro h hm; simp [sendOllamaRequest, h, hm]
  · intro h hc; simp [sendGeminiRequest, h, hc]

/-- Witness for the amended C2 at concrete responses. -/
theorem senders_failure_spec_witness :
    sendOllamaRequest { ok := false, status := 404, errorText := "not found", message := none }
      = .error ("Ollama API hatası: 404 - not found")
    ∧ sendGeminiRequest { ok := false, status := 429, errorText := "quota", candidates := none }
      = .error ("Gemini API Error: 429 quota")
    ∧ sendGeminiRequest c2MalformedGemini = .ok "" :=
  ⟨(senders_failure_spec { ok := false, status := 404, errorText := "not found", message := none }
      { ok := false, status := 429, errorText := "quota", candidates := none }).1 rfl,
   (senders_failure_spec { ok := false, status := 404, errorText := "not found", message := none }
      { ok := false, status := 429, errorText := "quota", candidates := none }).2.1 rfl,
   (senders_failure_spec { ok := true, status := 200, errorText := "", message := none }
      c2MalformedGemini).2.2.2 rfl rfl⟩

/-- A paper whose `fullText` is present but no longer than 200 characters. -/
def c3ShortFullTextPaper : Paper :=
  { id := "p1", title := "T", authors := ["A"], year := 2020
    abstract := "Kısa özet.", citationCount := 0, source := "S"
    fullText := some "present but short full text" }

/-- C3 counterexample: for a paper whose `fullText` is present but not longer
than 200 characters, `getPaperContent` uses the abstract, not the truncated
full text the claim prescribes for every present `fullText`. -/
theorem getPaperContent_short_fullText_cex :
    getPaperContent c3ShortFullTextPaper = abstractMarker ++ "Kısa özet."
    ∧ getPaperContent c3ShortFullTextPaper ≠ specSelectedContent c3ShortFullTextPaper := by
  exact ⟨rfl, by decide⟩

/-- C3 amended: the content selected for downstream prompts is the marked
first 10,000 characters of `fullText` (with a `"..."` suffix) exactly when
`fullText` is present and longer than 200 characters; otherwise it is the
abstract verbatim after its own fixed marker. -/
theorem getPaperContent_spec (p : Paper) :
    (∀ t, p.fullText = some t → 200 < t.length →
      getPaperContent p = fullTextMarker ++ strTake t 10000 ++ "..."
      ∧ (getPaperContent p).length ≤ fullTextMarker.length + 10003)
    ∧ ((∀ t, p.fullText = some t → t.length ≤ 200) →
      getPaperContent p = abstractMarker ++ p.abstract) := by
  constructor
  · intro t ht hlen
    have hcontent : getPaperContent p = fullTextMarker ++ strTake t 10000 ++ "..." := by
      simp [getPaperContent, ht, hlen]
    refine ⟨hcontent, ?_⟩
    rw [hcontent]
    have htake : (strTake t 10000).length ≤ 10000 := by
      rw [strTake, strLength_mk]
      simp [List.length_take]
    have hdots : ("..." : String).length = 3 := rfl
    simp only [String.length_append]
    omega
  · intro hshort
    cases ht : p.fullText with
    | none => simp [getPaperContent, ht]
    | some t =>
      have : t.length ≤ 200 := hshort t ht
      simp [getPaperContent, ht, Nat.not_lt.mpr this]

set_option maxRecDepth 8192 in
/-- Witness for the amended C3: both branches at concrete papers. -/
theorem getPaperContent_spec_witness :
    getPaperContent { c3ShortFullTextPaper with fullText := some (String.mk (List.replicate 300 'x')) }
      = fullTextMarker ++ String.mk (List.replicate 300 'x') ++ "..."
    ∧ getPaperContent c3ShortFullTextPaper = abstractMarker ++ "Kısa özet." := by
  constructor
  · have h := ((getPaperContent_spec
      { c3ShortFullTextPaper with fullText := some (String.mk (List.replicate 300 'x')) }).1
      (String.mk (List.replicate 300 'x')) rfl (by decide)).1
    rw [h]
    decide
  · exact (getPaperContent_spec c3ShortFullTextPaper).2 (by decide)

/-- C10: both variants of `searchPapers` return `{papers: [], total: 0}` for
a query that is empty or whitespace-only, for every offset, limit and network
outcome — the result does not depend on `net`, so no network request is
consulted, and no error is raised (the function is total). -/
theorem searchPapers_blank_query_spec (rand : Nat → Nat) (currentYear : Nat)
    (net : Option S2SearchResponse) (q : String) (offset limit : Nat)
    (h : (jsTrim (jsToLower q)).isEmpty = true) :
    searchPapersV1 rand currentYear net q offset limit = { papers := [], total := 0 }
    ∧ searchPapersV2 currentYear net q offset limit = { papers := [], total := 0 } := by
  constructor
  · simp [searchPapersV1, h]
  · simp [searchPapersV2, h]

/-- Witness for C10 at a whitespace-only query and arbitrary-looking inputs. -/
theorem searchPapers_blank_query_spec_witness :
    searchPapersV1 (fun _ => 7) 2024 (some { total := 99, offset := 0, data := none }) "   " 5 10
      = { papers := [], total := 0 }
    ∧ searchPapersV2 2024 none "\t \n" 0 10 = { papers := [], total := 0 } :=
  ⟨(searchPapers_blank_query_spec (fun _ => 7) 2024
      (some { total := 99, offset := 0, data := none }) "   " 5 10 (by decide)).1,
   (searchPapers_blank_query_spec (fun _ => 7) 2024 none "\t \n" 0 10 (by decide)).2⟩

/-- `l.take (min l.length n) = l.take n`: the page-count clamp of
`extractTextFromPdf` is the same as plain truncation. -/
theorem takeMinLen {α : Type} (l : List α) (n : Nat) :
    l.take (min l.length n) = l.take n := by
  rcases Nat.le_total l.length n with h | h
  · rw [Nat.min_eq_left h, List.take_length, List.take_of_length_le h]
  · rw [Nat.min_eq_right h]

/-- C5: `extractTextFromPdf` is total over (parse outcomes of) blobs; a parse
failure yields `""`; the output only depends on the first 15 pages, so a
document with more than 15 pages has exactly 15 pages processed; and on a
document within the cap the output is each page's tokens joined by single
spaces with each page followed by a blank line. -/
theorem extractTextFromPdf_spec :
    extractTextFromPdf none = ""
    ∧ (∀ pages : PdfDoc,
        extractTextFromPdf (some pages) = extractTextFromPdf (some (pages.take 15)))
    ∧ (∀ pages : PdfDoc, pagesProcessed (some pages) = min pages.length 15)
    ∧ (∀ pages : PdfDoc, 15 < pages.length → pagesProcessed (some pages) = 15)
    ∧ (∀ pages : PdfDoc, pages.length ≤ 15 →
        extractTextFromPdf (some pages)
          = String.join (pages.map (fun pg => String.intercalate " " pg ++ "\n\n"))) := by
  refine ⟨rfl, ?_, ?_, ?_, ?_⟩
  · intro pages
    show String.join _ = String.join _
    rw [takeMinLen, takeMinLen, List.take_take]
    simp
  · intro pages
    rfl
  · intro pages h
    show min pages.length 15 = 15
    omega
  · intro pages h
    show String.join _ = String.join _
    rw [takeMinLen, List.take_of_length_le h]

/-- Witness for C5: a 16-page document has exactly 15 pages processed, and a
concrete 2-page document is rendered page by page. -/
theorem extractTextFromPdf_spec_witness :
    pagesProcessed (some (List.replicate 16 ([] : PdfPage))) = 15
    ∧ extractTextFromPdf (some [["a", "b"], ["c"]]) = "a b\n\nc\n\n" := by
  constructor
  · exact extractTextFromPdf_spec.2.2.2.1 (List.replicate 16 ([] : PdfPage)) (by simp)
  · rw [extractTextFromPdf_spec.2.2.2.2 [["a", "b"], ["c"]] (by simp)]
    rfl

/-- C9: `generateLiteratureReview` includes at most 6 source papers when any
input paper carries (truthy) full text and at most 15 otherwise; the prompt
context assigns exactly the reference tokens `ref1 .. refN`, one per included
paper in order (so no token beyond `refN` is offered); and every included
paper is one of the input papers. -/
theorem generateLiteratureReview_tokens_spec (papers : List Paper) :
    (anyFullText papers = true → (litReviewContextPapers papers).length ≤ 6)
    ∧ (anyFullText papers = false → (litReviewContextPapers papers).length ≤ 15)
    ∧ (litReviewEntries papers).map Prod.fst
        = (List.range (litReviewContextPapers papers).length).map refToken
    ∧ (∀ p ∈ litReviewContextPapers papers, p ∈ papers)
    ∧ (litReviewEntries papers).length = (litReviewContextPapers papers).length := by
  refine ⟨?_, ?_, ?_, ?_, ?_⟩
  · intro h
    simp only [litReviewContextPapers, litReviewLimit, h, if_true]
    exact List.length_take_le 6 papers
  · intro h
    simp only [litReviewContextPapers, litReviewLimit, h, if_false]
    exact List.length_take_le 15 papers
  · unfold litReviewEntries
    rw [List.mapIdx_eq_enum_map, List.map_map]
    have h1 : ∀ x ∈ (litReviewContextPapers papers).enum,
        (Prod.fst ∘ Function.uncurry (fun i p =>
          (refToken i,
           "MAKALE_ID: " ++ refToken i ++
           "\n     Başlık: " ++ p.title ++
           "\n     Yazarlar: " ++ String.intercalate ", " p.authors ++
           "\n     Yıl: " ++ toString p.year ++
           "\n     İçerik: " ++ getPaperContent p))) x = (refToken ∘ Prod.fst) x := by
      rintro ⟨i, p⟩ _
      rfl
    rw [List.map_congr_left h1, ← List.map_map, List.enum_map_fst]
  · intro p hp
    exact List.take_subset _ _ hp
  · unfold litReviewEntries
    rw [List.mapIdx_eq_enum_map]
    simp

/-- Three abstract-only papers for the C9 witness. -/
def c9Papers : List Paper :=
  [ { id := "a", title := "A", authors := ["X"], year := 2020, abstract := "aa",
      citationCount := 0, source := "S" },
    { id := "b", title := "B", authors := ["Y"], year := 2021, abstract := "bb",
      citationCount := 0, source := "S" },
    { id := "c", title := "C", authors := ["Z"], year := 2022, abstract := "cc",
      citationCount := 0, source := "S" } ]

/-- Witness for C9: with 3 abstract-only input papers the limit branch allows
15, all 3 are included and the offered tokens are exactly `ref1..ref3`. -/
theorem generateLiteratureReview_tokens_spec_witness :
    (litReviewContextPapers c9Papers).length ≤ 15
    ∧ (litReviewEntries c9Papers).map Prod.fst = ["ref1", "ref2", "ref3"] := by
  constructor
  · exact (generateLiteratureReview_tokens_spec c9Papers).2.1 rfl
  · rw [(generateLiteratureReview_tokens_spec c9Papers).2.2.1]
    rfl

/-- C7: every paper returned by a successful-API `searchPapers` transform
comes from an item whose abstract is present and longer than 50 characters —
so every result whose abstract is absent or shorter than 50 characters is
filtered out — and, in the stricter variant, additionally from an item whose
DOI passes `getValidDOI`. -/
theorem searchPapers_abstract_filter_spec (currentYear : Nat) (data : List S2Paper) :
    (∀ p ∈ transformV1 currentYear data,
      ∃ item, item ∈ data ∧ (∃ s, item.abstract = some s ∧ 50 < s.length)
        ∧ p = toPaperV1 currentYear item)
    ∧ (∀ p ∈ transformV2 currentYear data,
      ∃ item, item ∈ data ∧ (∃ s, item.abstract = some s ∧ 50 < s.length)
        ∧ (getValidDOI item.doi).isSome ∧ p = toPaperV2 currentYear item) := by
  constructor
  · intro p hp
    unfold transformV1 at hp
    obtain ⟨item, hitem, rfl⟩ := List.mem_map.mp hp
    obtain ⟨hmem, hkeep⟩ := List.mem_filter.mp hitem
    refine ⟨item, hmem, ?_, rfl⟩
    unfold keepAbstract at hkeep
    cases h : item.abstract with
    | none => rw [h] at hkeep; exact absurd hkeep (by simp)
    | some s => rw [h] at hkeep; exact ⟨s, rfl, by simpa using hkeep⟩
  · intro p hp
    unfold transformV2 at hp
    obtain ⟨item, hitem, rfl⟩ := List.mem_map.mp hp
    obtain ⟨hitem2, hdoi⟩ := List.mem_filter.mp hitem
    obtain ⟨hmem, hkeep⟩ := List.mem_filter.mp hitem2
    refine ⟨item, hmem, ?_, ?_, rfl⟩
    · unfold keepAbstract at hkeep
      cases h : item.abstract with
      | none => rw [h] at hkeep; exact absurd hkeep (by simp)
      | some s => rw [h] at hkeep; exact ⟨s, rfl, by simpa using hkeep⟩
    · unfold keepDoi at hdoi
      simpa using hdoi

/-- A search item with a long abstract and a valid DOI, for the C7 witness. -/
def c7GoodItem : S2Paper :=
  { paperId := "x1", title := "T"
    abstract := some "This abstract is certainly longer than a mere fifty characters."
    year := some 2020, citationCount := some 3, authors := some ["A"]
    venue := some "V", url := some "u", doi := some "10.1234/abc"
    openAccessPdf := none }

/-- Witness for C7: the theorem applied to a singleton successful response. -/
theorem searchPapers_abstract_filter_spec_witness :
    ∃ item, item ∈ [c7GoodItem] ∧ (∃ s, item.abstract = some s ∧ 50 < s.length)
      ∧ (getValidDOI item.doi).isSome ∧ toPaperV2 2024 c7GoodItem = toPaperV2 2024 item :=
  (searchPapers_abstract_filter_spec 2024 [c7GoodItem]).2
    (toPaperV2 2024 c7GoodItem) (by decide)

/-- `enrichPaper` either returns its input or only adds a `fullText`. -/
theorem enrichPaper_eq_or (env : EnrichEnv) (p : Paper) :
    enrichPaper env p = p ∨ ∃ t, enrichPaper env p = { p with fullText := some t } := by
  unfold enrichPaper
  split
  · split
    next blob heq =>
      by_cases hlen : 50 < (extractTextFromPdf blob).length
      · right
        exact ⟨extractTextFromPdf blob, by simp [hlen]⟩
      · left
        simp [hlen]
    next heq => left; rfl
    next e heq => left; rfl
  · left; rfl

/-- C4: enrichment is length- and order-preserving (each output is the
per-paper enrichment of the corresponding input), never changes any field
except possibly `fullText`, and returns a paper entirely unchanged when its
id has no cached PDF, when it already carries (truthy) `fullText`, when the
cache lookup misses or rejects, or when the extracted text does not exceed
50 characters.  The embedding is a pure function: the input list and its
papers are values, never mutated. -/
theorem enrichPapersWithPdfContent_spec (env : EnrichEnv) (papers : List Paper) :
    (enrichPapersWithPdfContent env papers).length = papers.length
    ∧ (∀ (i : Nat) (hi : i < papers.length)
        (ho : i < (enrichPapersWithPdfContent env papers).length),
        (enrichPapersWithPdfContent env papers).get ⟨i, ho⟩
          = enrichPaper env (papers.get ⟨i, hi⟩))
    ∧ (∀ p : Paper,
        (enrichPaper env p).id = p.id ∧ (enrichPaper env p).title = p.title
        ∧ (enrichPaper env p).authors = p.authors
        ∧ (enrichPaper env p).abstract = p.abstract
        ∧ (enrichPaper env p).year = p.year
        ∧ (enrichPaper env p).citationCount = p.citationCount
        ∧ (enrichPaper env p).url = p.url ∧ (enrichPaper env p).doi = p.doi
        ∧ (enrichPaper env p).pdfUrl = p.pdfUrl
        ∧ (enrichPaper env p).source = p.source
        ∧ (enrichPaper env p).isMock = p.isMock
        ∧ (enrichPaper env p).savedAnalysis = p.savedAnalysis)
    ∧ (∀ p : Paper, env.cachedPdfIds p.id = false → enrichPaper env p = p)
    ∧ (∀ p : Paper, jsTruthy p.fullText = true → enrichPaper env p = p)
    ∧ (∀ p : Paper, env.pdfFetch p.id = .ok none → enrichPaper env p = p)
    ∧ (∀ p : Paper, ∀ e, env.pdfFetch p.id = .error e → enrichPaper env p = p)
    ∧ (∀ p : Paper, ∀ blob, env.pdfFetch p.id = .ok (some blob) →
        (extractTextFromPdf blob).length ≤ 50 → enrichPaper env p = p) := by
  refine ⟨?_, ?_, ?_, ?_, ?_, ?_, ?_, ?_⟩
  · simp [enrichPapersWithPdfContent]
  · intro i hi ho
    simp [enrichPapersWithPdfContent, List.get_eq_getElem]
  · intro p
    rcases enrichPaper_eq_or env p with h | ⟨t, h⟩ <;> rw [h] <;>
      exact ⟨rfl, rfl, rfl, rfl, rfl, rfl, rfl, rfl, rfl, rfl, rfl, rfl⟩
  · intro p h
    simp [enrichPaper, h]
  · intro p h
    simp [enrichPaper, h]
  · intro p h
    unfold enrichPaper
    split
    · rw [h]
    · rfl
  · intro p e h
    unfold enrichPaper
    split
    · rw [h]
    · rfl
  · intro p blob h hlen
    unfold enrichPaper
    split
    · rw [h]
      simp [Nat.not_lt.mpr hlen]
    · rfl

/-- A cache environment with no cached PDFs, for the C4 witness. -/
def c4Env : EnrichEnv :=
  { cachedPdfIds := fun _ => false, pdfFetch := fun _ => .ok none }

/-- A plain paper for the C4 witness. -/
def c4Paper : Paper :=
  { id := "w1", title := "Başlık", authors := ["Y"], year := 2021
    abstract := "Özet", citationCount := 1, source := "S" }

/-- Witness for C4: a paper with no cached PDF passes through unchanged. -/
theorem enrichPapersWithPdfContent_spec_witness :
    enrichPaper c4Env c4Paper = c4Paper
    ∧ (enrichPapersWithPdfContent c4Env [c4Paper]).length = 1 :=
  ⟨(enrichPapersWithPdfContent_spec c4Env [c4Paper]).2.2.2.1 c4Paper rfl,
   (enrichPapersWithPdfContent_spec c4Env [c4Paper]).1⟩

set_option maxRecDepth 20000 in
/-- C6 counterexample: two runs of the fallback path with the same query,
offset and limit but different `Math.random` outcomes produce different
output — the synthetic padding papers' citation counts are freshly random —
so the fallback is not byte-identical across runs. -/
theorem fallbackSearchV1_not_byte_identical :
    fallbackSearchV1 (fun _ => 0) "zzz" 0 10 ≠ fallbackSearchV1 (fun _ => 1) "zzz" 0 10 := by
  decide

/-- Erase the one field of a fallback result that depends on `Math.random`. -/
def scrubCitationCount (p : Paper) : Paper := { p with citationCount := 0 }

/-- Each run of `generateMockPapers` yields `count` papers. -/
theorem generateMockPapersV1_length (r : Nat → Nat) (q : String) (c s : Nat) :
    (generateMockPapersV1 r q c s).length = c := by
  simp [generateMockPapersV1]

/-- Away from `citationCount`, `generateMockPapers` does not depend on the
random source. -/
theorem generateMockPapersV1_scrub (r1 r2 : Nat → Nat) (q : String) (c s : Nat) :
    (generateMockPapersV1 r1 q c s).map scrubCitationCount
      = (generateMockPapersV1 r2 q c s).map scrubCitationCount := by
  unfold generateMockPapersV1
  rw [List.map_map, List.map_map]
  apply List.map_congr_left
  intro i _
  rfl

/-- C6 amended: the fallback path never throws (it is a total function
returning a well-formed `{papers, total}` with at most `limit` papers), its
`total` is the stable 45 for every query, offset, limit and random outcome —
so pagination stays consistent — and two runs with the same query, offset
and limit agree on every byte of the output except the `citationCount` of
the synthetic padding papers, which is freshly random per run. -/
theorem fallbackSearchV1_deterministic_amended (r1 r2 : Nat → Nat) (q : String)
    (o l o2 l2 : Nat) :
    (fallbackSearchV1 r1 q o l).total = 45
    ∧ (fallbackSearchV1 r1 q o l).total = (fallbackSearchV1 r2 q o2 l2).total
    ∧ (fallbackSearchV1 r1 q o l).papers.map scrubCitationCount
        = (fallbackSearchV1 r2 q o l).papers.map scrubCitationCount
    ∧ (fallbackSearchV1 r1 q o l).papers.length ≤ l := by
  simp only [fallbackSearchV1]
  set m := MOCK_DATABASE_V1.filter (fun paper =>
    strContains (jsToLower paper.title) (jsTrim (jsToLower q)) ||
    strContains (jsToLower paper.abstract) (jsTrim (jsToLower q)) ||
    (splitWsFilter (jsTrim (jsToLower q)) 2).any
      (fun w => strContains (jsToLower paper.title) w)) with hm
  have hmlen : m.length ≤ 3 := by
    have h3 : MOCK_DATABASE_V1.length = 3 := rfl
    calc m.length ≤ MOCK_DATABASE_V1.length := List.length_filter_le _ _
    _ = 3 := h3
  have hcond : m.length < 45 := by omega
  simp only [if_pos hcond]
  refine ⟨?_, ?_, ?_, ?_⟩
  · rw [List.length_append, generateMockPapersV1_length]
    omega
  · rw [List.length_append, generateMockPapersV1_length,
      List.length_append, generateMockPapersV1_length]
  · simp only [jsSlice, List.map_take, List.map_drop, List.map_append,
      generateMockPapersV1_scrub r1 r2 q (45 - m.length) m.length]
  · exact List.length_take_le l _

/-- `setD` at one index leaves every other index unchanged. -/
theorem setD_get_ne {α : Type} (a : Array α) (i j : Nat) (v : α) (h : i ≠ j) :
    (a.setD i v)[j]? = a[j]? := by
  unfold Array.setD
  split
  next hlt => exact Array.getElem?_set_ne a ⟨i, hlt⟩ v h
  next => rfl

/-- `placeWord` preserves the array size. -/
theorem placeWord_size (w : String) (ps : List Nat) (arr : Array String) :
    (placeWord arr w ps).size = arr.size := by
  induction ps generalizing arr with
  | nil => rfl
  | cons p rest ih =>
    show (placeWord (arr.setD p w) w rest).size = arr.size
    rw [ih, Array.size_setD]

/-- The whole placement fold preserves the array size. -/
theorem foldPlace_size (entries : InvIndex) (arr : Array String) :
    (entries.foldl (fun a e => placeWord a e.1 e.2) arr).size = arr.size := by
  induction entries generalizing arr with
  | nil => rfl
  | cons e rest ih =>
    show (rest.foldl _ (placeWord arr e.1 e.2)).size = arr.size
    rw [ih, placeWord_size]

/-- `placeWord` leaves indices outside the word's position list unchanged. -/
theorem placeWord_get_of_not_mem (w : String) (ps : List Nat) (arr : Array String)
    (j : Nat) (h : j ∉ ps) :
    (placeWord arr w ps)[j]? = arr[j]? := by
  induction ps generalizing arr with
  | nil => rfl
  | cons p rest ih =>
    show (placeWord (arr.setD p w) w rest)[j]? = arr[j]?
    have hp : p ≠ j := fun hh => h (hh ▸ List.mem_cons_self p rest)
    rw [ih _ (fun hh => h (List.mem_cons_of_mem p hh)), setD_get_ne _ _ _ _ hp]

/-- `placeWord` writes the word at every in-bounds index of its position
list. -/
theorem placeWord_get_of_mem (w : String) (ps : List Nat) (arr : Array String)
    (j : Nat) (hj : j < arr.size) (hmem : j ∈ ps) :
    (placeWord arr w ps)[j]? = some w := by
  induction ps generalizing arr with
  | nil => cases hmem
  | cons p rest ih =>
    show (placeWord (arr.setD p w) w rest)[j]? = some w
    by_cases hr : j ∈ rest
    · exact ih (arr.setD p w) (by rw [Array.size_setD]; exact hj) hr
    · have hp : j = p := by
        rcases List.mem_cons.mp hmem with h | h
        · exact h
        · exact absurd h hr
      subst hp
      rw [placeWord_get_of_not_mem w rest _ j hr]
      exact Array.getElem?_setD_eq arr hj w

/-- Entries none of whose positions mention `j` leave index `j` unchanged. -/
theorem foldPlace_get_untouched (entries : InvIndex) (arr : Array String) (j : Nat)
    (h : ∀ e ∈ entries, j ∉ e.2) :
    (entries.foldl (fun a e => placeWord a e.1 e.2) arr)[j]? = arr[j]? := by
  induction entries generalizing arr with
  | nil => rfl
  | cons e rest ih =>
    show (rest.foldl _ (placeWord arr e.1 e.2))[j]? = arr[j]?
    rw [ih _ (fun e' he' => h e' (List.mem_cons_of_mem e he')),
        placeWord_get_of_not_mem _ _ _ _ (h e (List.mem_cons_self e rest))]

/-- If some entry `(w, ps)` places `w` at `j` and every entry containing `j`
carries the same word `w`, the fold ends with `w` at index `j`. -/
theorem foldPlace_get_written (entries : InvIndex) (arr : Array String) (j : Nat)
    (w : String) (hj : j < arr.size)
    (hex : ∃ ps, (w, ps) ∈ entries ∧ j ∈ ps)
    (huniq : ∀ w' ps', (w', ps') ∈ entries → j ∈ ps' → w' = w) :
    (entries.foldl (fun a e => placeWord a e.1 e.2) arr)[j]? = some w := by
  induction entries generalizing arr with
  | nil =>
    obtain ⟨ps, hmem, _⟩ := hex
    cases hmem
  | cons e rest ih =>
    show (rest.foldl _ (placeWord arr e.1 e.2))[j]? = some w
    by_cases hr : ∃ ps, (w, ps) ∈ rest ∧ j ∈ ps
    · exact ih (placeWord arr e.1 e.2) (by rw [placeWord_size]; exact hj) hr
        (fun w' ps' h1 h2 => huniq w' ps' (List.mem_cons_of_mem e h1) h2)
    · obtain ⟨ps, hmem, hjin⟩ := hex
      have hhead : e = (w, ps) := by
        rcases List.mem_cons.mp hmem with h | h
        · exact h.symm
        · exact absurd ⟨ps, h, hjin⟩ hr
      have hrest : ∀ e' ∈ rest, j ∉ e'.2 := by
        intro e' he' hjn
        have hw : e'.1 = w := huniq e'.1 e'.2 (List.mem_cons_of_mem e he') hjn
        exact hr ⟨e'.2, by rw [← hw]; exact he', hjn⟩
      rw [foldPlace_get_untouched rest _ j hrest]
      have hpw : (placeWord arr e.1 e.2)[j]? = some e.1 :=
        placeWord_get_of_mem e.1 e.2 arr j hj (by rw [hhead]; exact hjin)
      rw [hpw, hhead]

/-- Every position in a word's list is bounded by the maximum of the list. -/
theorem le_foldr_max (ps : List Nat) (j : Nat) (h : j ∈ ps) : j ≤ ps.foldr max 0 := by
  induction ps with
  | nil => cases h
  | cons p rest ih =>
    show j ≤ max p (rest.foldr max 0)
    rcases List.mem_cons.mp h with h1 | h1
    · subst h1
      exact le_max_left _ _
    · exact le_trans (ih h1) (le_max_right _ _)

/-- Every position mentioned in an index is bounded by `maxPosition`. -/
theorem le_maxPosition (idx : InvIndex) (w : String) (ps : List Nat) (j : Nat)
    (hmem : (w, ps) ∈ idx) (hj : j ∈ ps) : j ≤ maxPosition idx := by
  induction idx with
  | nil => cases hmem
  | cons e rest ih =>
    show j ≤ max (e.2.foldr max 0) (maxPosition rest)
    rcases List.mem_cons.mp hmem with h | h
    · have he : e.2 = ps := by rw [← h]
      have : j ≤ e.2.foldr max 0 := by
        rw [he]
        exact le_foldr_max ps j hj
      exact le_trans this (le_max_left _ _)
    · exact le_trans (ih h) (le_max_right _ _)

/-- C8 (modelled from the spec): reconstruction allocates a word array of
size `max(position) + 1` and, for every proper inverted index (each position
carried by exactly one word), the word at position `i` of the reconstructed
array is the word whose position set contains `i`; the abstract is that
array joined with single spaces. -/
theorem reconstructAbstract_spec (idx : InvIndex) (i : Nat) (w : String) (ps : List Nat)
    (hmem : (w, ps) ∈ idx) (hi : i ∈ ps)
    (huniq : ∀ w' ps', (w', ps') ∈ idx → i ∈ ps' → w' = w) :
    (reconstructAbstractArr idx)[i]? = some w
    ∧ (reconstructAbstractArr idx).size = maxPosition idx + 1
    ∧ reconstructAbstract idx = String.intercalate " " (reconstructAbstractArr idx).toList := by
  have hi2 : i < (Array.mkArray (maxPosition idx + 1) "").size := by
    rw [Array.size_mkArray]
    exact Nat.lt_succ_of_le (le_maxPosition idx w ps i hmem hi)
  refine ⟨?_, ?_, rfl⟩
  · exact foldPlace_get_written idx _ i w hi2 ⟨ps, hmem, hi⟩ huniq
  · unfold reconstructAbstractArr
    rw [foldPlace_size, Array.size_mkArray]

/-- A proper three-word inverted index for the C8 witness. -/
def c8Index : InvIndex := [("hello", [0]), ("world", [1, 3]), ("again", [2])]

/-- Witness for C8: on a concrete proper index the word containing position 3
ends at position 3 and the array has size `max(position) + 1 = 4`. -/
theorem reconstructAbstract_spec_witness :
    (reconstructAbstractArr c8Index)[3]? = some "world"
    ∧ (reconstructAbstractArr c8Index).size = maxPosition c8Index + 1 := by
  have h := reconstructAbstract_spec c8Index 3 "world" [1, 3] (by decide) (by decide)
    (by
      intro w' ps' hmem h3
      simp only [c8Index, List.mem_cons, List.not_mem_nil, or_false, Prod.mk.injEq] at hmem
      rcases hmem with ⟨rfl, rfl⟩ | ⟨rfl, rfl⟩ | ⟨rfl, rfl⟩
      · exact absurd h3 (by decide)
      · rfl
      · exact absurd h3 (by decide))
  exact ⟨h.1, h.2.1⟩
